import Mathlib

/-!
Verification development for the agent layer of the career-navigator backend
(`src/graph.py`, `src/tools.py`).

Python strings are embedded as `List Char`; Python functions on them become
computable Lean functions; module-level mutable state is passed explicitly;
operations that can raise are modelled with `Except`.  Each definition carries
a reference to the source function it embeds.
-/

namespace CareerNav

/-- Python strings, embedded as lists of characters. -/
abbrev Str := List Char

/-- Convenience coercion from Lean string literals to `Str`. -/
def lit (s : String) : Str := s.toList

/-- One lower-cased character, as Python `str.lower` acts on the ASCII range
(the only range the embedded code's vocabulary and markup use). -/
def pyLowerChar (c : Char) : Char :=
  if 'A' ≤ c ∧ c ≤ 'Z' then Char.ofNat (c.toNat + 32) else c

/-- Python `str.lower` (ASCII). -/
def pyLower (s : Str) : Str := s.map pyLowerChar

/-- Python `str.isspace` characters relevant to `str.strip()`. -/
def pyIsSpace (c : Char) : Bool :=
  c = ' ' || c = '\t' || c = '\n' || c = '\r' || c = '\x0b' || c = '\x0c'

/-- Python `str.strip()`: remove whitespace from both ends. -/
def pyStrip (s : Str) : Str :=
  ((s.dropWhile pyIsSpace).reverse.dropWhile pyIsSpace).reverse

/-- Python `pat in s` substring test (an empty pattern is contained in
every string). -/
def hasSubstr (s pat : Str) : Bool :=
  match s with
  | [] => pat.isEmpty
  | _ :: rest => pat.isPrefixOf s || hasSubstr rest pat

/-- Number of positions of `s` at which `pat` starts (used only to state the
count-based classifier that claim C4 describes). -/
def countOcc (s pat : Str) : Nat :=
  match s with
  | [] => 0
  | _ :: rest => (if pat.isPrefixOf s then 1 else 0) + countOcc rest pat

/-! ### Conversation memory store — `ThreadSafeMemoryStore`, graph.py lines 26-48

The Python class guards a plain dict with an `RLock`; each public method is a
single critical section, so each is embedded as one state transition. -/

/-- State of a `ThreadSafeMemoryStore`: the underlying `_store` dict. -/
structure ThreadSafeMemoryStore where
  store : Str → Option (List Str)

/-- `ThreadSafeMemoryStore.__init__`: `self._store = {}`. -/
def ThreadSafeMemoryStore.init : ThreadSafeMemoryStore := ⟨fun _ => none⟩

/-- `ThreadSafeMemoryStore.get(thread_id, default)` (graph.py 31-33). -/
def ThreadSafeMemoryStore.get (m : ThreadSafeMemoryStore) (t : Str)
    (dflt : List Str) : List Str :=
  (m.store t).getD dflt

/-- `ThreadSafeMemoryStore.set(thread_id, value)` (graph.py 35-37). -/
def ThreadSafeMemoryStore.set (m : ThreadSafeMemoryStore) (t : Str)
    (v : List Str) : ThreadSafeMemoryStore :=
  ⟨fun t' => if t' = t then some v else m.store t'⟩

/-- `ThreadSafeMemoryStore.append(thread_id, value)` (graph.py 39-46): create
the per-thread list if absent, append, then retain only the last 10 entries
(`lst[-10:]`).  The whole method runs under the store's lock, so it is one
transition. -/
def ThreadSafeMemoryStore.append (m : ThreadSafeMemoryStore) (t : Str)
    (v : Str) : ThreadSafeMemoryStore :=
  let cur := (m.store t).getD []
  let l := cur ++ [v]
  let l := if l.length > 10 then l.drop (l.length - 10) else l
  ⟨fun t' => if t' = t then some l else m.store t'⟩

/-! ### Intent router — `router`, graph.py lines 294-301 -/

/-- The career vocabulary of `router` (graph.py 297). -/
def careerKeywords : List Str :=
  [lit "job", lit "resume", lit "apply", lit "hiring", lit "jd", lit "role"]

/-- The learning vocabulary of `router` (graph.py 299). -/
def learningKeywords : List Str :=
  [lit "learn", lit "teach", lit "quiz", lit "study", lit "course", lit "path"]

/-- `router(state)` (graph.py 294-301): `intent` starts as `"chat"`, is set to
`"career"` if any career keyword occurs in the lower-cased message, then set to
`"learning"` if any learning keyword occurs.  Returns the final `intent`. -/
def router (message : Option Str) : Str :=
  let text := pyLower (message.getD [])
  let intent := lit "chat"
  let intent := if careerKeywords.any (fun k => hasSubstr text k) then lit "career" else intent
  let intent := if learningKeywords.any (fun k => hasSubstr text k) then lit "learning" else intent
  intent

/-- The classifier exactly as claim C4 words it: total occurrence counts of the
two vocabularies, strict comparison, `chat` on ties.  (Spec-side definition,
for comparison with `router` above.) -/
def routerCountSpec (message : Option Str) : Str :=
  let text := pyLower (message.getD [])
  let c := (careerKeywords.map (fun k => countOcc text k)).sum
  let l := (learningKeywords.map (fun k => countOcc text k)).sum
  if l < c then lit "career"
  else if c < l then lit "learning"
  else lit "chat"

/-- The amended description of `router`: membership (any-hit) rather than
counts, with the learning vocabulary taking precedence. -/
def routerAnyHitSpec (message : Option Str) : Str :=
  let text := pyLower (message.getD [])
  if learningKeywords.any (fun k => hasSubstr text k) then lit "learning"
  else if careerKeywords.any (fun k => hasSubstr text k) then lit "career"
  else lit "chat"

/-! ### LaTeX sanitizer — `fix_latex_syntax` and `is_valid_latex`, graph.py 357-425

Braces inside Lean string literals below are written with the escapes
`\x7b` (open brace) and `\x7d` (close brace). -/

/-- The two-character sequence backslash, open brace (Python `r'\{'`). -/
def bsOpen : Str := ['\\', '\x7b']

/-- The two-character sequence backslash, close brace (Python `r'\}'`). -/
def bsClose : Str := ['\\', '\x7d']

/-- Worker for Python `s.replace(pat, repl)`: scan left to right; at a match
emit `repl`, consume the first matched character and skip the remaining
`pat.length - 1` matched characters via the `skip` counter (so occurrences are
non-overlapping and scanning continues after each replacement, as in CPython).
Structurally recursive so that it evaluates inside the kernel. -/
def pyReplaceGo (pat repl : Str) (skip : Nat) : Str → Str
  | [] => []
  | c :: rest =>
    match skip with
    | n + 1 => pyReplaceGo pat repl n rest
    | 0 =>
      if pat ≠ [] ∧ pat.isPrefixOf (c :: rest) then
        repl ++ pyReplaceGo pat repl (pat.length - 1) rest
      else
        c :: pyReplaceGo pat repl 0 rest

/-- Python `s.replace(pat, repl)` for a non-empty `pat`.  (Never called with an
empty `pat`, whose Python behaviour differs.) -/
def pyReplace (pat repl s : Str) : Str := pyReplaceGo pat repl 0 s

/-- Worker for Python `re.sub(r'(?<!\\)WORD', r'\\WORD', s)` with a literal
`word`: scan left to right carrying the previous character as lookbehind
context; where `word` matches and the previous character is not a backslash,
emit a backslash plus `word` and skip the matched characters.  While skipping,
`prev` keeps tracking the characters consumed, so after a match the lookbehind
context is the last character of the match, as for `re` on the original
string. -/
def subNoBsGo (word : Str) (prev : Option Char) (skip : Nat) : Str → Str
  | [] => []
  | c :: rest =>
    match skip with
    | n + 1 => subNoBsGo word (some c) n rest
    | 0 =>
      if word ≠ [] ∧ word.isPrefixOf (c :: rest) ∧ prev ≠ some '\\' then
        '\\' :: word ++ subNoBsGo word (some c) (word.length - 1) rest
      else
        c :: subNoBsGo word (some c) 0 rest

/-- `re.sub` with the negative-lookbehind pattern, applied to a whole string
(no character precedes the first position). -/
def reSubNoBsBefore (word s : Str) : Str := subNoBsGo word none 0 s

/-- `noUnescOcc word prev s` holds when no occurrence of `word` in `s` (with
lookbehind context `prev` for the first position) lacks a preceding backslash —
exactly the condition under which the negative-lookbehind substitution leaves
`s` unchanged. -/
def noUnescOcc (word : Str) (prev : Option Char) : Str → Bool
  | [] => true
  | c :: rest =>
    if word ≠ [] ∧ word.isPrefixOf (c :: rest) ∧ prev ≠ some '\\' then false
    else noUnescOcc word (some c) rest

/-- `fix_latex_syntax(latex_code)` (graph.py 399-425).  The middle
`replace`/`re.sub` calls of the source substitute a literal by itself and are
embedded as such. -/
def fix_latex_syntax (latex_code : Str) : Str :=
  if latex_code = [] then []
  else
    let l := pyReplace bsOpen (lit "\x7b") latex_code
    let l := pyReplace bsClose (lit "\x7d") l
    let l := pyReplace (lit "\\begin\x7b") (lit "\\begin\x7b") l
    let l := pyReplace (lit "\\end\x7b") (lit "\\end\x7b") l
    let l := pyReplace (lit "\\begin\x7bitemize\x7d") (lit "\\begin\x7bitemize\x7d") l
    let l := pyReplace (lit "\\end\x7bitemize\x7d") (lit "\\end\x7bitemize\x7d") l
    let l := pyReplace (lit "\\begin\x7benumerate\x7d") (lit "\\begin\x7benumerate\x7d") l
    let l := pyReplace (lit "\\end\x7benumerate\x7d") (lit "\\end\x7benumerate\x7d") l
    let l := pyReplace (lit "\\section\x7b") (lit "\\section\x7b") l
    let l := pyReplace (lit "\\subsection\x7b") (lit "\\subsection\x7b") l
    let l := reSubNoBsBefore (lit "begin\x7b") l
    let l := reSubNoBsBefore (lit "end\x7b") l
    l

/-- `is_valid_latex(latex_code)` (graph.py 357-396): empty input is invalid;
a remaining escaped brace (`\{` or `\}`) is a critical error; otherwise the
three structural markers must occur, case-insensitively.  (The "warnings" loop
of the source has no effect on the result.) -/
def is_valid_latex (latex_code : Str) : Bool :=
  if latex_code = [] then false
  else if hasSubstr latex_code bsOpen then false
  else if hasSubstr latex_code bsClose then false
  else
    hasSubstr (pyLower latex_code) (lit "\\documentclass") &&
    hasSubstr (pyLower latex_code) (lit "\\begin\x7bdocument\x7d") &&
    hasSubstr (pyLower latex_code) (lit "\\end\x7bdocument\x7d")

/-! ### Career tools — `analyze_resume` and `match_jobs`, tools.py 7-39 -/

/-- A token of the regular expressions that `analyze_resume` builds: a literal
character, or a one-or-more repeat of a character. -/
inductive RTok where
  | litc (c : Char)
  | plus (c : Char)
deriving DecidableEq

/-- Step of the pattern reading in `compileSkill`: a `+` is a repeat quantifier
on the preceding single-character atom; a second `+` makes the repeat
possessive (Python ≥ 3.11), which matches the same strings here.  Tokens are
accumulated in reverse. -/
def pushTok (acc : List RTok) (c : Char) : List RTok :=
  if c = '+' then
    match acc with
    | [] => [RTok.litc '+']
    | RTok.litc d :: ts => RTok.plus d :: ts
    | RTok.plus d :: ts => RTok.plus d :: ts
  else
    RTok.litc c :: acc

/-- The regex denoted by one entry `s` of the skills vocabulary when spliced
into `rf"\\b{s}\\b"`: every character of `s` is a literal except `+`, which
quantifies the atom before it (relevant only for the entry `c++`).  The
leading-`+` case of `pushTok` is unreachable for the vocabulary used. -/
def compileSkill (s : Str) : List RTok := (s.foldl pushTok []).reverse

/-- In the source the pattern is the raw f-string `rf"\\b{s}\\b"`, so `\\b` is
an escaped backslash followed by `b` — two literal characters, not a word
boundary. -/
def skillPattern (s : Str) : List RTok :=
  [RTok.litc '\\', RTok.litc 'b'] ++ compileSkill s ++ [RTok.litc '\\', RTok.litc 'b']

/-- Match a token list against a prefix of `s`.  A `plus` consumes the maximal
run of its character and does not give any of it back (possessive repeat); for
the patterns built here a repeat is never followed by a literal of the same
character, so this matches exactly the Python semantics. -/
def matchToks : List RTok → Str → Bool
  | [], _ => true
  | RTok.litc c :: ps, s =>
    match s with
    | [] => false
    | d :: rest => c = d && matchToks ps rest
  | RTok.plus c :: ps, s =>
    (s.takeWhile (fun d => d = c)) ≠ [] && matchToks ps (s.dropWhile (fun d => d = c))

/-- Python `re.search`: try to match at every start position. -/
def searchToks (p : List RTok) : Str → Bool
  | [] => matchToks p []
  | c :: rest => matchToks p (c :: rest) || searchToks p rest

/-- `re.search(rf"\\b{s}\\b", text_l)` as used in tools.py line 17. -/
def reSearchSkill (s text : Str) : Bool := searchToks (skillPattern s) text

/-- The fixed skills vocabulary of `analyze_resume` (tools.py 11-15). -/
def skills_db : List Str :=
  [lit "python", lit "java", lit "c++", lit "sql", lit "mongodb", lit "mysql",
   lit "react", lit "node", lit "express", lit "aws", lit "docker",
   lit "kubernetes", lit "git", lit "rest", lit "linux", lit "pandas",
   lit "numpy", lit "tensorflow", lit "pytorch"]

/-- Lexicographic (code-point) order on embedded strings, as Python compares
strings; used for `sorted(...)`. -/
def strLe : Str → Str → Bool
  | [], _ => true
  | _ :: _, [] => false
  | a :: as, b :: bs => if a = b then strLe as bs else decide (a < b)

/-- Result dict of `analyze_resume`. -/
structure Analysis where
  skills : List Str
  suggestions : List Str
deriving DecidableEq

/-- The three default suggestion strings of `analyze_resume` (tools.py 20-25). -/
def sugSql : Str := lit "Add SQL with a concrete bullet (e.g., optimized 5 complex joins)"

/-- Second suggestion string. -/
def sugAws : Str := lit "Mention basic cloud skills (AWS/GCP/Azure) if relevant"

/-- Third suggestion string. -/
def sugReact : Str := lit "If applying for full-stack, include React/Node exposure"

/-- `analyze_resume(text)` (tools.py 7-27): lower-case the text, collect the
vocabulary entries whose pattern `rf"\\b{s}\\b"` matches (a set; the
vocabulary is duplicate-free, so filtering preserves distinctness), return
them sorted, plus the suggestions the three membership tests produce. -/
def analyze_resume (text : Str) : Analysis :=
  let text_l := pyLower text
  let found := (skills_db.filter (fun s => reSearchSkill s text_l)).insertionSort
    (fun a b => strLe a b = true)
  let suggestions :=
    (if ¬ found.contains (lit "sql") then [sugSql] else []) ++
    (if ¬ found.contains (lit "aws") then [sugAws] else []) ++
    (if ¬ found.contains (lit "react") ∧ ¬ found.contains (lit "node")
      then [sugReact] else [])
  ⟨found, suggestions⟩

/-- A job posting dict as `match_jobs` uses it: a `requirements` list plus a
`match_score` entry, absent (`none`) until `match_jobs` writes it.  Other keys
of the posting dicts are not read by the code under analysis. -/
structure Post where
  title : Str
  requirements : List Str
  match_score : Option Nat
deriving DecidableEq

/-- `score(post)` inside `match_jobs` (tools.py 32-34):
`len(set(skills) & set([s.lower() for s in post.get("requirements", [])]))`,
the number of distinct skills that occur among the lower-cased
requirements. -/
def postScore (skills : List Str) (p : Post) : Nat :=
  ((skills.dedup).filter (fun s => (p.requirements.map pyLower).contains s)).length

/-- `match_jobs(skills, job_posts)` (tools.py 30-39): sort by score descending
with Python's stable sort (embedded as insertion sort, which computes the same
list as any stable sort of the same boolean preorder), then attach each post's
score as `match_score`. -/
def match_jobs (skills : List Str) (job_posts : List Post) : List Post :=
  let ranked := job_posts.insertionSort (fun a b => postScore skills b ≤ postScore skills a)
  ranked.map (fun p => { p with match_score := some (postScore skills p) })

/-! ### LLM gateway — `safe_llm_invoke` and `enhanced_fallback_response`,
graph.py 97-289 -/

/-- Fallback reply for resume/career prompts (graph.py 174-182). -/
def fbCareerText : Str :=
  lit "I can help you with resume optimization and career advice! \n\n" ++
  lit "For resume improvements, I can:\n• Analyze your skills and experience\n" ++
  lit "• Suggest better wording and formatting\n• Tailor your resume for specific job roles\n" ++
  lit "• Generate professional LaTeX resumes\n\n" ++
  lit "Please share your resume text and let me know what specific improvements you're looking for."

/-- Fallback reply for SQL prompts (graph.py 186-204). -/
def fbSqlText : Str :=
  lit "**SQL Learning Guide**\n\n🔹 **What is SQL?**\n" ++
  lit "SQL (Structured Query Language) is used to manage and query relational databases.\n\n" ++
  lit "🔹 **Key Concepts to Learn:**\n1. **Basic Queries**: SELECT, FROM, WHERE\n" ++
  lit "2. **Data Manipulation**: INSERT, UPDATE, DELETE  \n" ++
  lit "3. **Joins**: INNER JOIN, LEFT JOIN, RIGHT JOIN\n" ++
  lit "4. **Aggregation**: GROUP BY, HAVING, COUNT, SUM\n5. **Subqueries and CTEs**\n\n" ++
  lit "🔹 **Practice Example:**\n```sql\nSELECT name, department, salary \nFROM employees \n" ++
  lit "WHERE department = 'Engineering' \nORDER BY salary DESC;\n" ++
  lit "💡 Next Steps: Practice with real datasets, learn about indexes and query optimization."

/-- Fallback reply for Python prompts (graph.py 207-236). -/
def fbPythonText : Str :=
  lit "**Python Programming Guide**\n🔹 Why Python?\n\nEasy to learn with clean syntax\n\n" ++
  lit "Versatile (web, data science, AI, automation)\n\nLarge ecosystem of libraries\n\n" ++
  lit "Strong community support\n\n🔹 Learning Path:\n\nBasics: variables, loops, functions\n\n" ++
  lit "Data structures: lists, dictionaries, sets\n\nObject-oriented programming\n\n" ++
  lit "Libraries: Pandas (data), Requests (web), Flask (web framework)\n\n🔹 Project Ideas:\n\n" ++
  lit "Web scraper\n\nData analysis script\n\nSimple web application\n\nAutomation scripts"

/-- Fallback reply for JavaScript prompts (graph.py 239-265). -/
def fbJsText : Str :=
  lit "JavaScript Web Development\n\n🔹 Core Concepts:\n\nVariables and data types\n\n" ++
  lit "Functions and scope\n\nDOM manipulation\n\nAsync programming (callbacks, promises)\n\n" ++
  lit "🔹 Ecosystem:\n\nFrontend: React, Vue, Angular\n\nBackend: Node.js, Express\n\n" ++
  lit "Tools: npm, webpack, ESLint\n\n🔹 Learning Resources:\n\nMDN Web Docs\n\n" ++
  lit "FreeCodeCamp JavaScript curriculum\n\nPractice building interactive web pages"

/-- Fallback reply for generic learning prompts (graph.py 267-279). -/
def fbLearnText : Str :=
  lit "Effective Learning Strategy 🎯\n\nSet Clear Goals: What do you want to achieve?\n\n" ++
  lit "Practice Consistently: Regular practice beats cramming\n\n" ++
  lit "Build Projects: Apply knowledge to real problems\n\n" ++
  lit "Join Communities: Get help and share progress\n\n" ++
  lit "Review Regularly: Reinforce what you've learned\n\n" ++
  lit "💡 Tip: Focus on understanding concepts rather than memorizing syntax. Build a portfolio of projects to demonstrate your skills."

/-- Default fallback reply (graph.py 282-289). -/
def fbDefaultText : Str :=
  lit "I'd be happy to help you with career guidance or learning resources! \n" ++
  lit "I can assist with:\n• Resume optimization and career advice\n" ++
  lit "• Learning paths for programming and tech skills\n• Technical interview preparation\n" ++
  lit "• Project ideas and learning resources\n\n" ++
  lit "What specific area would you like help with today?"

/-- First literal part of the LaTeX generation prompt (graph.py 329-330). -/
def latexPromptPre : Str :=
  lit "\n    Generate a professional resume in LaTeX format based on this resume text:\n    "

/-- Second literal part of the LaTeX generation prompt (graph.py 332-333). -/
def latexPromptMid : Str :=
  lit "\n    \n    User request: "

/-- Final literal part of the LaTeX generation prompt (graph.py 334-347); in the non-raw f-string the sequences backslash-b and backslash-t denote backspace and tab characters. -/
def latexPromptPost : Str :=
  lit "\n    \n    **CRITICAL LaTeX FORMATTING RULES:**\n" ++
  lit "    - Use proper LaTeX syntax WITHOUT escaping curly braces\n" ++
  lit "    - Use \x08egin\x7bitemize\x7d and \\end\x7bitemize\x7d for lists (NO backslashes before curly braces)\n" ++
  lit "    - Use \x08egin\x7bsection\x7d and \\end\x7bsection\x7d for sections  \n" ++
  lit "    - Use \textbf\x7btext\x7d for bold, \textit\x7btext\x7d for italic\n" ++
  lit "    - Use \\ for line breaks, not \n\n" ++
  lit "    - Use \\section\x7bSection Title\x7d for section headers\n" ++
  lit "    - Use \\item for list items inside itemize environments\n    \n" ++
  lit "    **DO NOT USE:** \\\x7b or \\\x7d - use regular \x7b and \x7d instead\n    \n" ++
  lit "    Generate clean, compilable LaTeX code:\n    "

/-- The built-in LaTeX template of get_fallback_latex_template (graph.py 430-472). -/
def fallbackTemplate : Str :=
  lit "\\documentclass[11pt,a4paper]\x7barticle\x7d\n\\usepackage[utf8]\x7binputenc\x7d\n" ++
  lit "\\usepackage[T1]\x7bfontenc\x7d\n\\usepackage\x7bgeometry\x7d\n" ++
  lit "\\usepackage\x7benumitem\x7d\n\\usepackage\x7bhyperref\x7d\n\n" ++
  lit "\\geometry\x7ba4paper, margin=1in\x7d\n" ++
  lit "\\setlist[itemize]\x7bleftmargin=*,labelindent=0pt\x7d\n\n\\begin\x7bdocument\x7d\n\n" ++
  lit "\\begin\x7bcenter\x7d\n    \x7b\\LARGE \\textbf\x7bProfessional Resume\x7d\x7d \\\\\n" ++
  lit "    \\vspace\x7b0.5cm\x7d\n    \x7b\\large Software Engineer\x7d\n\\end\x7bcenter\x7d\n" ++
  lit "\n\\section*\x7bProfessional Summary\x7d\n" ++
  lit "Experienced software engineer with strong technical skills and proven track record of delivering high-quality software solutions.\n" ++
  lit "\n\\section*\x7bTechnical Skills\x7d\n\\begin\x7bitemize\x7d\n" ++
  lit "    \\item \\textbf\x7bProgramming:\x7d Python, JavaScript, Java, C++\n" ++
  lit "    \\item \\textbf\x7bFrameworks:\x7d React, Node.js, Express, Django\n" ++
  lit "    \\item \\textbf\x7bTools:\x7d Git, Docker, AWS, Jenkins\n" ++
  lit "    \\item \\textbf\x7bDatabases:\x7d MySQL, MongoDB, PostgreSQL\n\\end\x7bitemize\x7d\n" ++
  lit "\n\\section*\x7bProfessional Experience\x7d\n\\begin\x7bitemize\x7d\n" ++
  lit "    \\item Developed and maintained scalable web applications\n" ++
  lit "    \\item Collaborated with cross-functional teams to deliver features\n" ++
  lit "    \\item Optimized application performance and improved user experience\n" ++
  lit "\\end\x7bitemize\x7d\n\n\\section*\x7bEducation\x7d\n\\begin\x7bitemize\x7d\n" ++
  lit "    \\item Bachelor of Science in Computer Science or related field\n" ++
  lit "\\end\x7bitemize\x7d\n\n\\end\x7bdocument\x7d\n"

/-- Literal part of the intent sub-classifier prompt (graph.py 488-489). -/
def classifierPromptPre : Str :=
  lit "You are a binary classifier. Only respond with one word: 'restructure' if the user wants to modify or rewrite their resume, or 'analyze' if they just want feedback.\n" ++
  lit "\nUser: "

/-- Analyze-branch prompt literal (opening), graph.py 498-505. -/
def analyzePrompt0 : Str :=
  lit "You are a concise career coach. Based on the user's resume and message, write a short actionable reply.\n" ++
  lit "User message: "

/-- Analyze-branch prompt literal (before resume content), graph.py 498-505. -/
def analyzePrompt1 : Str :=
  lit "\nResume content: "

/-- Analyze-branch prompt literal (before detected skills), graph.py 498-505. -/
def analyzePrompt2 : Str :=
  lit "...\nDetected skills: "

/-- Analyze-branch prompt literal (before suggestions), graph.py 498-505. -/
def analyzePrompt3 : Str :=
  lit "\nSuggestions: "

/-- Analyze-branch prompt literal (before job titles), graph.py 498-505. -/
def analyzePrompt4 : Str :=
  lit "\nTop job match titles: "

/-- Analyze-branch prompt literal (closing newline), graph.py 498-505. -/
def analyzePrompt5 : Str :=
  lit "\n"

/-- Preamble prepended when the markup does not start with a document-class declaration (graph.py 537-548). -/
def wrapPreamble : Str :=
  lit "\\documentclass\x7barticle\x7d\n\\usepackage[utf8]\x7binputenc\x7d\n" ++
  lit "\\usepackage[T1]\x7bfontenc\x7d\n\\usepackage\x7bgeometry\x7d\n" ++
  lit "\\usepackage\x7bhyperref\x7d\n\\geometry\x7ba4paper, margin=1in\x7d\n" ++
  lit "\\title\x7bProfessional Resume\x7d\n\\author\x7bSoftware Engineer\x7d\n" ++
  lit "\\begin\x7bdocument\x7d\n\\maketitle\n"

/-- Literal part 0 of the download/preview block for the compiled PDF (graph.py 629-636). -/
def mainLinks0 : Str :=
  lit "\n\n📥 **Download Your Tailored Resume:**\n• <a href='"

/-- Literal part 1 of the download/preview block for the compiled PDF (graph.py 629-636). -/
def mainLinks1 : Str :=
  lit "' target='_blank' download='SWE_Resume.pdf'>📄 Download PDF</a>\n• <a href='"

/-- Literal part 2 of the download/preview block for the compiled PDF (graph.py 629-636). -/
def mainLinks2 : Str :=
  lit "' target='_blank'>👀 Preview in Browser</a>\n\n📋 **Resume Preview:**\n<iframe src='"

/-- Literal part 3 of the download/preview block for the compiled PDF (graph.py 629-636). -/
def mainLinks3 : Str :=
  lit "' width='100%' height='600px' style='border:1px solid #ccc; border-radius:8px; margin-top:10px;'></iframe>"

/-- Literal part 0 of the download/preview block for the fallback PDF (graph.py 665-672). -/
def simpleLinks0 : Str :=
  lit "\n\n📥 **Download Simple Resume:**\n• <a href='"

/-- Literal part 1 of the download/preview block for the fallback PDF (graph.py 665-672). -/
def simpleLinks1 : Str :=
  lit "' target='_blank' download='SWE_Resume_Simple.pdf'>📄 Download PDF</a>\n• <a href='"

/-- Literal part 2 of the download/preview block for the fallback PDF (graph.py 665-672). -/
def simpleLinks2 : Str :=
  lit "' target='_blank'>👀 Preview in Browser</a>\n\n📋 **Resume Preview:**\n<iframe src='"

/-- Literal part 3 of the download/preview block for the fallback PDF (graph.py 665-672). -/
def simpleLinks3 : Str :=
  lit "' width='100%' height='600px' style='border:1px solid #ccc; border-radius:8px; margin-top:10px;'></iframe>"

/-- Opening of the collapsible LaTeX-source block (graph.py 681-685). -/
def latexBlockPre : Str :=
  lit "\n\n---\n**LaTeX Source Code**:\n" ++
  lit "<details><summary>Click to expand (for debugging)</summary>\n\n" ++
  lit "<pre style='background: #f5f5f5; padding: 10px; border-radius: 5px; overflow-x: auto; white-space: pre-wrap;'>"

/-- Closing of a collapsible block (graph.py 685/695). -/
def detailsClose : Str :=
  lit "</pre>\n</details>"

/-- Opening of the collapsible compilation-logs block (graph.py 690-694). -/
def logsBlockPre : Str :=
  lit "\n\n---\n**Compilation Logs**:\n<details><summary>Click to expand</summary>\n\n" ++
  lit "<pre style='background: #fff0f0; padding: 10px; border-radius: 5px; overflow-x: auto; white-space: pre-wrap;'>"


/-- `any(word in text for word in words)` as the fallback uses it. -/
def anyKeyword (text : Str) (kws : List Str) : Bool :=
  kws.any (fun k => hasSubstr text k)

/-- `enhanced_fallback_response(prompt)` (graph.py 168-289): a deterministic,
locally computed reply chosen by keyword matching on the lower-cased prompt. -/
def enhanced_fallback_response (prompt : Str) : Str :=
  let p := pyLower prompt
  if anyKeyword p [lit "resume", lit "cv", lit "career", lit "job", lit "apply"] then
    fbCareerText
  else if anyKeyword p [lit "sql", lit "database", lit "query"] then
    fbSqlText
  else if anyKeyword p [lit "python", lit "programming"] then
    fbPythonText
  else if anyKeyword p [lit "javascript", lit "web development"] then
    fbJsText
  else if anyKeyword p [lit "learn", lit "study", lit "how to"] then
    fbLearnText
  else
    fbDefaultText

/-- Outcome of the OpenRouter POST plus response parsing (graph.py 112-129):
`raises` covers transport errors and exceptions from `response.json()`; on a
response, `content` is `result['choices'][0]['message']['content']` when that
lookup succeeds and `none` when it raises.  Either exception is caught by the
`except` of graph.py 134 and control falls through. -/
inductive PrimaryOutcome where
  | raises
  | response (status : Nat) (content : Option Str)
deriving DecidableEq

/-- Outcome of the Hugging Face POST (graph.py 141-151): `raises` for
transport/parse errors; otherwise the status, whether the parsed JSON is a
non-empty list, and `result[0].get('generated_text', '')`. -/
inductive SecondaryOutcome where
  | raises
  | response (status : Nat) (isNonemptyList : Bool) (generated_text : Str)
deriving DecidableEq

/-- The external conditions one `safe_llm_invoke` call runs under. -/
structure LlmEnv where
  primary : PrimaryOutcome
  hfKey : Str
  secondary : SecondaryOutcome

/-- Prompt truncation (graph.py 104-105). -/
def truncatePrompt (p : Str) : Str :=
  if p.length > 4000 then p.take 4000 ++ lit "... [truncated]" else p

/-- The Option-1 block (graph.py 111-135): `some t` when one of its `return`
statements runs, `none` when control falls through to the next block.  On
status 200 with parsed content the stripped text is returned unconditionally —
even when it is empty. -/
def primaryStage (env : LlmEnv) : Option Str :=
  match env.primary with
  | .raises => none
  | .response status content =>
    if status = 200 then
      match content with
      | some text => some (pyStrip text)
      | none => none
    else none

/-- The Option-2 block (graph.py 137-158): runs only when `HF_API_KEY` is set;
returns the stripped text with the prompt removed, and only when that text is
non-empty. -/
def secondaryStage (env : LlmEnv) (prompt : Str) : Option Str :=
  if env.hfKey ≠ [] then
    match env.secondary with
    | .raises => none
    | .response status ok gen =>
      if status = 200 ∧ ok then
        let text := pyStrip (pyReplace prompt [] gen)
        if text ≠ [] then some text else none
      else none
  else none

/-- `safe_llm_invoke(prompt, timeout)` (graph.py 97-166): truncate the prompt,
try OpenRouter, then Hugging Face, then the local fallback.  Every raising
operation is inside a handler (the per-provider `except` blocks and the outer
`except` of graph.py 163-166), so the embedding is a total function — the call
never propagates an exception. -/
def safe_llm_invoke (env : LlmEnv) (prompt : Str) (timeout : Nat := 30) : Str :=
  let prompt := truncatePrompt prompt
  match primaryStage env with
  | some t => t
  | none =>
    match secondaryStage env prompt with
    | some t => t
    | none => enhanced_fallback_response prompt

/-! ### Career agent — `career_agent`, graph.py 475-702

The agent's calls to `safe_llm_invoke` are abstracted by an oracle
`gw : Str → Nat → Str` (by `safe_llm_invoke`'s totality, an arbitrary total
function is the exact interface), and every external call is recorded in a
trace.  Filesystem and subprocess outcomes are environment fields. -/

/-- One external call made by an agent. -/
inductive EffCall where
  | llm (prompt : Str) (timeout : Nat)
  | pdflatex
  | fitzSave (title content : Str)
deriving DecidableEq

/-- The state dict passed to an agent (keys read by the code under
analysis). -/
structure AgentState where
  message : Option Str
  resume_text : Option Str
  job_posts : List Post
  thread_id : Option Str

/-- The dict an agent returns: `reply` plus the optional keys. -/
structure AgentResult where
  reply : Str
  pdf_path : Option Str
  latex_code : Option Str
  intent : Option Str
deriving DecidableEq

/-- External conditions of one `career_agent` call. -/
structure CareerEnv where
  /-- Result of `safe_llm_invoke(prompt, timeout)` under the ambient network
  conditions. -/
  gw : Str → Nat → Str
  /-- `uuid.uuid4().hex` for this request (graph.py 523). -/
  token : Str
  /-- Whether writing the `.tex` file succeeds (graph.py 568-571). -/
  writeTexOk : Bool
  /-- Whether the `pdflatex` loop raises `CalledProcessError`,
  `FileNotFoundError` or `TimeoutExpired` (graph.py 619). -/
  compileRaises : Bool
  /-- `str(e)` of that exception. -/
  exceptionText : Str
  /-- The stdout/stderr text accumulated from the runs (graph.py 599-602). -/
  runsOutput : Str
  /-- `os.path.exists(pdf_path)` after the compilation loop (graph.py 607). -/
  pdfExists : Bool
  /-- `os.path.getsize(pdf_path)` (graph.py 608). -/
  pdfSize : Nat
  /-- Whether the fitz fallback block reaches `doc.save` successfully
  (graph.py 644-660). -/
  fitzOk : Bool
  /-- `str(fallback_error)` when it does not. -/
  fitzErrText : Str

/-- Python repr of a list of strings, as an f-string renders a list value. -/
def pyReprStrList (xs : List Str) : Str :=
  lit "[" ++
    List.intercalate (lit ", ") (xs.map (fun s => lit "\x27" ++ s ++ lit "\x27")) ++
  lit "]"

/-- The intent sub-classifier prompt (graph.py 488-489); `message` is already
lower-cased by line 479. -/
def classifierPrompt (message : Str) : Str := classifierPromptPre ++ message

/-- The analyze-branch coaching prompt (graph.py 498-505).  Line 500
interpolates `state.get('message')`, the original, non-lowered message —
`None` when the key is absent. -/
def analyzePrompt (origMessage : Option Str) (resume_text : Str)
    (analysis : Analysis) (ranked : List Post) : Str :=
  analyzePrompt0 ++ (match origMessage with | some m => m | none => lit "None") ++
  analyzePrompt1 ++ resume_text.take 4000 ++
  analyzePrompt2 ++ pyReprStrList analysis.skills ++
  analyzePrompt3 ++ pyReprStrList analysis.suggestions ++
  analyzePrompt4 ++ pyReprStrList ((ranked.take 3).map (fun p => p.title)) ++
  analyzePrompt5

/-- The LaTeX-generation prompt built by `generate_latex_with_ai`
(graph.py 329-347). -/
def latexGenPrompt (resume_text user_message : Str) : Str :=
  latexPromptPre ++ resume_text.take 3000 ++ latexPromptMid ++ user_message ++
    latexPromptPost

/-- Entry-guard reply (graph.py 482). -/
def askResumeReply : Str := lit "⚠️ Please provide your resume text for analysis."

/-- Empty-reply substitute of the analyze branch (graph.py 506). -/
def noContentReply : Str := lit "⚠️ The model returned no content."

/-- Reply when writing the `.tex` file fails (graph.py 575). -/
def writeFailedReply : Str := lit "❌ Failed to create LaTeX file. Please try again."

/-- Reply when the compilation loop raises (graph.py 622). -/
def compileFailedReply : Str := lit "❌ LaTeX compilation failed"

/-- Reply when the PDF exists and exceeds 1000 bytes (graph.py 614). -/
def successReply : Str := lit "✅ Resume successfully tailored for SWE roles!"

/-- Reply when the PDF is missing or not larger than 1000 bytes (graph.py 617). -/
def warningReply : Str := lit "⚠️ PDF generation had some issues - showing LaTeX code"

/-- Note prepended when entering the fitz fallback (graph.py 639). -/
def usingFallbackNote : Str := lit "\n\n⚠️ **Using fallback PDF generation**"

/-- Separator before the exception text in the log (graph.py 621). -/
def exceptionNotePre : Str := lit "\n--- Exception ---\n"

/-- Note when the fitz fallback also fails (graph.py 677). -/
def fallbackFailedPre : Str := lit "\n\n❌ Fallback PDF also failed: "

/-- The fixed title of the fitz fallback document (graph.py 651). -/
def fitzTitle : Str := lit "SOFTWARE ENGINEER RESUME"

/-- The write / compile / response phase of the restructure branch
(graph.py 567-702), given the fully sanitized markup `latex_code` and the
(stripped) resume text: write the `.tex` file, run the typesetting loop,
and assemble the reply, falling back to the fitz-drawn document when the
response step finds no PDF. -/
def restructureRespond (env : CareerEnv) (resume_text latex_code : Str) :
    AgentResult × List EffCall :=
  let base := lit "resume_restructured_" ++ env.token
  let preview_url := lit "/generated_resumes/" ++ base ++ lit ".pdf"
  let download_url := lit "/download-pdf/" ++ base ++ lit ".pdf"
  if ¬ env.writeTexOk then
    ({ reply := writeFailedReply, pdf_path := none, latex_code := some latex_code,
       intent := some (lit "restructure") }, [])
  else
    let (pdf_generated, latex_output, reply, runTrace) :=
      if env.compileRaises then
        (false, env.runsOutput ++ exceptionNotePre ++ env.exceptionText,
         compileFailedReply, [EffCall.pdflatex])
      else
        let pdf_generated := env.pdfExists
        let file_size := if pdf_generated then env.pdfSize else 0
        let reply :=
          if pdf_generated ∧ file_size > 1000 then successReply else warningReply
        (pdf_generated, env.runsOutput, reply, [EffCall.pdflatex, EffCall.pdflatex])
    let (combined1, pdf_generated2, trace1) :=
      if pdf_generated ∧ env.pdfExists then
        (reply ++ mainLinks0 ++ download_url ++ mainLinks1 ++ preview_url ++
           mainLinks2 ++ preview_url ++ mainLinks3,
         pdf_generated, runTrace)
      else
        let c := reply ++ usingFallbackNote
        let fallback_filename := base ++ lit "_simple.pdf"
        let fallback_preview := lit "/generated_resumes/" ++ fallback_filename
        let fallback_download := lit "/download-pdf/" ++ fallback_filename
        if env.fitzOk then
          (c ++ simpleLinks0 ++ fallback_download ++ simpleLinks1 ++
             fallback_preview ++ simpleLinks2 ++ fallback_preview ++ simpleLinks3,
           true, runTrace ++ [EffCall.fitzSave fitzTitle (resume_text.take 1500)])
        else
          (c ++ fallbackFailedPre ++ env.fitzErrText, pdf_generated,
           runTrace ++ [EffCall.fitzSave fitzTitle (resume_text.take 1500)])
    let combined2 :=
      if latex_code ≠ [] then combined1 ++ latexBlockPre ++ latex_code ++ detailsClose
      else combined1
    let combined3 :=
      if latex_output ≠ [] ∧ ¬ pdf_generated2 then
        combined2 ++ logsBlockPre ++ latex_output ++ detailsClose
      else combined2
    ({ reply := combined3,
       pdf_path := if pdf_generated2 then some preview_url else none,
       latex_code := some latex_code, intent := some (lit "restructure") },
     trace1)

/-- `career_agent(state)` (graph.py 475-702), returning the result dict and
the trace of external calls. -/
def career_agent (env : CareerEnv) (state : AgentState) : AgentResult × List EffCall :=
  let message := pyLower (state.message.getD [])
  let resume_text := pyStrip (state.resume_text.getD [])
  if resume_text = [] then
    ({ reply := askResumeReply, pdf_path := none, latex_code := none, intent := none }, [])
  else
    let job_posts := state.job_posts
    let clPrompt := classifierPrompt message
    let res := pyLower (pyStrip (env.gw clPrompt 30))
    let intent := if hasSubstr res (lit "restructure") then lit "restructure" else lit "analyze"
    if intent = lit "analyze" then
      let analysis := analyze_resume resume_text
      let ranked := if job_posts ≠ [] then match_jobs analysis.skills job_posts else []
      let prompt := analyzePrompt state.message resume_text analysis ranked
      let reply := env.gw prompt 30
      let reply := if reply = [] then noContentReply else reply
      ({ reply := pyStrip reply, pdf_path := none, latex_code := none,
         intent := some (lit "analyze") },
       [EffCall.llm clPrompt 30, EffCall.llm prompt 30])
    else
      let latex0 := pyStrip (env.gw (latexGenPrompt resume_text message) 30)
      let latex1 := if ¬ is_valid_latex latex0 then fallbackTemplate else latex0
      let latex2 := fix_latex_syntax latex1
      let latex3 :=
        if ¬ (lit "\\documentclass").isPrefixOf (pyStrip latex2) then
          wrapPreamble ++ latex2 ++ lit "\n\\end\x7bdocument\x7d"
        else latex2
      let latex4 := pyReplace (lit "&") (lit "\\&") latex3
      let latex4 := pyReplace (lit "%") (lit "\\%") latex4
      let latex4 := pyReplace (lit "#") (lit "\\#") latex4
      let latex4 := pyReplace (lit "_") (lit "\\_") latex4
      let latex4 := pyReplace (lit "$") (lit "\\$") latex4
      let latex5 :=
        if hasSubstr latex4 (lit "\\href") ∧
            ¬ hasSubstr latex4 (lit "\\usepackage\x7bhyperref\x7d") then
          pyReplace (lit "\\usepackage[utf8]\x7binputenc\x7d")
            (lit "\\usepackage[utf8]\x7binputenc\x7d\n\\usepackage\x7bhyperref\x7d") latex4
        else latex4
      let trace0 := [EffCall.llm clPrompt 30,
                     EffCall.llm (latexGenPrompt resume_text message) 30]
      let rt := restructureRespond env resume_text latex5
      (rt.1, trace0 ++ rt.2)

/-! ### Learning agent — `learning_agent`, graph.py 705-767

Line 705 of graph.py, `memory_store: Dict[str, list] = \x7b\x7d`, rebinds the
module-level name `memory_store` — shadowing the `ThreadSafeMemoryStore`
instance created at line 48 — to a plain `dict`.  `learning_agent` therefore
runs against a plain dict: its `.get(thread, [])` works, but a `dict` object
has no `append` attribute, so `memory_store.append(...)` at line 755 raises
`AttributeError`, which the surrounding `except Exception` handler
(graph.py 761-767) converts into the technical-difficulties reply. -/

/-- The plain dict bound to `memory_store` at graph.py 705. -/
abbrev PyDict := List (Str × List Str)

/-- Python exception values relevant here. -/
inductive PyErr where
  | attributeError
deriving DecidableEq

/-- `d.get(k, dflt)` on a plain dict. -/
def pyDictGet (d : PyDict) (k : Str) (dflt : List Str) : List Str :=
  match d.find? (fun kv => kv.1 == k) with
  | some kv => kv.2
  | none => dflt

/-- The attribute access `memory_store.append` where `memory_store` is the
plain dict of graph.py 705: `dict` has no `append` attribute, so the lookup
raises `AttributeError` before any call happens. -/
def pyDictAppendMethod (d : PyDict) (k : Str) (v : Str) : Except PyErr PyDict :=
  .error .attributeError

/-- Early-validation reply (graph.py 721). -/
def validationReply : Str :=
  lit "Please provide a specific topic or question you\x27d like to learn about."

/-- Substitute for an empty or warning-prefixed gateway reply (graph.py 752). -/
def apologyReply : Str :=
  lit "I apologize, but I\x27m having trouble generating a learning response right now. " ++
  lit "Please try again with a different question or topic."

/-- The `except Exception` handler's reply (graph.py 766). -/
def techDifficultiesReply : Str :=
  lit "I\x27m experiencing technical difficulties with the learning service. " ++
  lit "Please try again in a moment or contact support if this continues."

/-- Default topic when the state has no `message` key (graph.py 717). -/
def defaultTopic : Str := lit "Please help me learn about this topic"

/-- Context placeholder when the thread has no history (graph.py 728). -/
def noPrevContext : Str := lit "No previous context"

/-- The learning-mentor prompt (graph.py 731-739). -/
def learningPrompt (context_text topic : Str) : Str :=
  lit "You are a helpful learning mentor. Be concise and practical.\n\nPrevious conversation:\n" ++
  context_text ++
  lit "\n\nUser\x27s current question: \"" ++
  topic ++
  lit "\"\n\nProvide a helpful explanation or learning suggestion. Keep it under 300 words.\n" ++
  lit "Focus on practical advice and clear explanations."

/-- The memory entry written for one exchange (graph.py 755). -/
def memoryEntry (topic reply : Str) : Str :=
  lit "User: " ++ topic ++ lit "\nAssistant: " ++ reply

/-- The dict `learning_agent` returns (only a `reply` key). -/
structure LearnResult where
  reply : Str
deriving DecidableEq

/-- `learning_agent(state, thread_id)` (graph.py 709-767), returning the
result, the (unchanged or updated) module-level `memory_store` dict, and the
trace of gateway calls.  `gw` abstracts `safe_llm_invoke` as for
`career_agent`. -/
def learning_agent (gw : Str → Nat → Str) (store : PyDict) (state : AgentState)
    (thread_id : Str := lit "default") : LearnResult × PyDict × List EffCall :=
  let thread :=
    if state.thread_id.getD [] ≠ [] then state.thread_id.getD []
    else if thread_id ≠ [] then thread_id
    else lit "default"
  let topic := state.message.getD defaultTopic
  if topic = [] ∨ (pyStrip topic).length < 2 then
    (⟨validationReply⟩, store, [])
  else
    let history := pyDictGet store thread []
    let context_text :=
      if history ≠ [] then List.intercalate (lit "\n") (history.drop (history.length - 2))
      else noPrevContext
    let prompt := learningPrompt context_text topic
    let reply := gw prompt 15
    let reply :=
      if reply = [] ∨ (lit "⚠️").isPrefixOf reply then apologyReply else reply
    match pyDictAppendMethod store thread (memoryEntry topic reply) with
    | .ok store2 => (⟨pyStrip reply⟩, store2, [EffCall.llm prompt 15])
    | .error _ => (⟨techDifficultiesReply⟩, store, [EffCall.llm prompt 15])


/-- `pat` occurs contiguously inside `s` (used to state that a reply embeds a
given link). -/
def occursIn (pat s : Str) : Prop := ∃ u v, s = u ++ (pat ++ v)

end CareerNav

namespace CareerNav

/-! ## Helper lemmas -/

/-- Replacing a pattern by itself only reproduces the input (modulo an initial
skip). -/
theorem pyReplaceGo_self (pat : Str) :
    ∀ (s : Str) (skip : Nat), pyReplaceGo pat pat skip s = s.drop skip := by
  intro s
  induction s with
  | nil => intro skip; simp [pyReplaceGo]
  | cons c rest ih =>
    intro skip
    match skip with
    | n + 1 => simpa [pyReplaceGo] using ih n
    | 0 =>
      rw [pyReplaceGo]
      split
      case isTrue h =>
        obtain ⟨hne, hpre⟩ := h
        have hp : pat ++ (c :: rest).drop pat.length = c :: rest :=
          List.prefix_iff_eq_append.mp (List.isPrefixOf_iff_prefix.mp hpre)
        obtain ⟨d, pat', rfl⟩ : ∃ d pat', pat = d :: pat' := by
          cases pat with
          | nil => exact absurd rfl hne
          | cons d pat' => exact ⟨d, pat', rfl⟩
        rw [ih]
        simpa [List.drop_succ_cons] using hp
      case isFalse h =>
        simpa using ih 0

/-- `s.replace(pat, pat)` is the identity. -/
theorem pyReplace_self (pat s : Str) : pyReplace pat pat s = s := by
  simpa using pyReplaceGo_self pat s 0

/-- `s.replace(pat, repl)` is the identity when `pat` does not occur in `s`. -/
theorem pyReplace_of_not_hasSubstr (pat repl s : Str) (h : hasSubstr s pat = false) :
    pyReplace pat repl s = s := by
  unfold pyReplace
  induction s with
  | nil => simp [pyReplaceGo]
  | cons c rest ih =>
    rw [hasSubstr] at h
    simp only [Bool.or_eq_false_iff] at h
    rw [pyReplaceGo]
    rw [if_neg (by simp [h.1])]
    rw [ih h.2]

/-- The negative-lookbehind substitution is the identity when every occurrence
of the word is already escaped. -/
theorem subNoBsGo_id (word : Str) :
    ∀ (s : Str) (prev : Option Char), noUnescOcc word prev s = true →
      subNoBsGo word prev 0 s = s := by
  intro s
  induction s with
  | nil => intro prev _; simp [subNoBsGo]
  | cons c rest ih =>
    intro prev h
    rw [noUnescOcc] at h
    rw [subNoBsGo]
    split
    case isTrue hguard => rw [if_pos hguard] at h; exact absurd h (by simp)
    case isFalse hguard => rw [if_neg hguard] at h; rw [ih (some c) h]

end CareerNav

namespace CareerNav

/-- C2: for every thread identifier, after appending 11 entries the store
holds exactly the 10 most recent in insertion order; and every single
`append` transition leaves the per-thread list at no more than 10 entries
(the cap is enforced within the same locked transition as the insert). -/
theorem memory_store_fifo_cap :
    (∀ (t v0 v1 v2 v3 v4 v5 v6 v7 v8 v9 v10 : Str),
      ((((((((((((ThreadSafeMemoryStore.init.append t v0).append t v1).append t
        v2).append t v3).append t v4).append t v5).append t v6).append t
        v7).append t v8).append t v9).append t v10).get t []) =
        [v1, v2, v3, v4, v5, v6, v7, v8, v9, v10]) ∧
    (∀ (m : ThreadSafeMemoryStore) (t v : Str),
      ((m.append t v).get t []).length ≤ 10) := by
  constructor
  · intro t v0 v1 v2 v3 v4 v5 v6 v7 v8 v9 v10
    simp [ThreadSafeMemoryStore.append, ThreadSafeMemoryStore.get,
      ThreadSafeMemoryStore.init]
  · intro m t v
    simp [ThreadSafeMemoryStore.append, ThreadSafeMemoryStore.get]
    split <;> simp_all [List.length_drop, List.length_append] <;> omega

/-- C4 (counterexample): on the message "job resume apply hiring learn" the
career vocabulary scores 4 occurrences against 1 for the learning vocabulary,
so the count-based classifier of the claim answers career, while `router`
answers learning. -/
theorem router_count_counterexample :
    router (some (lit "job resume apply hiring learn")) ≠
      routerCountSpec (some (lit "job resume apply hiring learn")) ∧
    router (some (lit "job resume apply hiring learn")) = lit "learning" ∧
    routerCountSpec (some (lit "job resume apply hiring learn")) = lit "career" := by
  refine ⟨by decide, by decide, by decide⟩

/-- C4 (amended): `router` classifies by membership, not counts — any learning
keyword makes the intent learning regardless of career matches; otherwise any
career keyword makes it career; otherwise chat. -/
theorem router_eq_anyHitSpec (m : Option Str) : router m = routerAnyHitSpec m := by
  cases hl : learningKeywords.any (fun k => hasSubstr (pyLower (m.getD [])) k) <;>
  cases hc : careerKeywords.any (fun k => hasSubstr (pyLower (m.getD [])) k) <;>
  simp [router, routerAnyHitSpec, hl, hc]

/-- C3 (counterexample): `fix` is not idempotent — on the three-character
input backslash, backslash, open-brace, one application yields backslash,
open-brace and a second application strips the remaining escape. -/
theorem fix_latex_not_idempotent :
    fix_latex_syntax ( fix_latex_syntax ['\\', '\\', '\x7b']) ≠
      fix_latex_syntax ['\\', '\\', '\x7b'] := by decide

/-- C3 (amended): `fix` is idempotent on every input whose image is settled:
no escaped brace remains and every `begin`-brace / `end`-brace occurrence is
already preceded by a backslash.  (A doubly-escaped brace as in the
counterexample loses one backslash per pass.) -/
theorem fix_latex_idem_of_settled (x : Str)
    (h1 : hasSubstr ( fix_latex_syntax x) bsOpen = false)
    (h2 : hasSubstr ( fix_latex_syntax x) bsClose = false)
    (h3 : noUnescOcc (lit "begin\x7b") none ( fix_latex_syntax x) = true)
    (h4 : noUnescOcc (lit "end\x7b") none ( fix_latex_syntax x) = true) :
    fix_latex_syntax ( fix_latex_syntax x) = fix_latex_syntax x := by
  set y := fix_latex_syntax x with hy
  by_cases hnil : y = []
  · rw [hnil]; rfl
  · simp only [ fix_latex_syntax]
    rw [if_neg hnil]
    rw [pyReplace_of_not_hasSubstr _ _ _ h1]
    rw [pyReplace_of_not_hasSubstr _ _ _ h2]
    simp only [pyReplace_self]
    simp only [reSubNoBsBefore]
    rw [subNoBsGo_id _ _ _ h3]
    rw [subNoBsGo_id _ _ _ h4]

/-- C3 (witness): the settledness conditions hold for a plain input, on which
idempotence then follows from the theorem. -/
theorem fix_latex_idem_witness :
    (hasSubstr ( fix_latex_syntax (lit "hello world")) bsOpen = false ∧
     hasSubstr ( fix_latex_syntax (lit "hello world")) bsClose = false ∧
     noUnescOcc (lit "begin\x7b") none ( fix_latex_syntax (lit "hello world")) = true ∧
     noUnescOcc (lit "end\x7b") none ( fix_latex_syntax (lit "hello world")) = true) ∧
    fix_latex_syntax ( fix_latex_syntax (lit "hello world")) =
      fix_latex_syntax (lit "hello world") :=
  ⟨⟨by decide, by decide, by decide, by decide⟩,
   fix_latex_idem_of_settled _ (by decide) (by decide) (by decide) (by decide)⟩

end CareerNav

namespace CareerNav

/-- C10: with missing, empty or whitespace-only resume text, `career_agent`
returns only the ask-for-resume reply — no document reference, no generated
markup, no intent tag — and its trace is empty: neither the LLM gateway nor
the document compiler (nor the fitz fallback) is invoked, for any message. -/
theorem career_agent_empty_resume (env : CareerEnv) (state : AgentState)
    (h : pyStrip (state.resume_text.getD []) = []) :
    career_agent env state =
      ({ reply := askResumeReply, pdf_path := none, latex_code := none,
         intent := none }, []) := by
  unfold career_agent
  rw [if_pos h]

/-- C10 (witness): a concrete call with whitespace-only resume text. -/
theorem career_agent_empty_resume_witness :
    pyStrip ((some (lit "   ")).getD []) = [] ∧
    career_agent
      ⟨fun _ _ => lit "restructure", lit "t0", true, false, [], [], true, 2000, true, []⟩
      ⟨some (lit "please restructure my resume"), some (lit "   "), [], none⟩ =
      ({ reply := askResumeReply, pdf_path := none, latex_code := none,
         intent := none }, []) :=
  ⟨by decide,
   career_agent_empty_resume
     ⟨fun _ _ => lit "restructure", lit "t0", true, false, [], [], true, 2000, true, []⟩
     ⟨some (lit "please restructure my resume"), some (lit "   "), [], none⟩
     (by decide)⟩

/-- C1 (code bug): at a concrete valid call — message "What is SQL?", empty
memory, a gateway that answers — `learning_agent` does call the gateway with
the 15-second timeout, but the append to the memory store hits the plain dict
bound at graph.py 705 (`AttributeError`), so the agent returns the
technical-difficulties reply instead of the gateway's reply, and the store is
left unchanged. -/
theorem learning_agent_shadowed_store :
    learning_agent
      (fun _ _ => lit "SQL is a standard language for querying relational databases.")
      [] ⟨some (lit "What is SQL?"), none, [], none⟩ (lit "default") =
    (⟨techDifficultiesReply⟩, [],
     [EffCall.llm (learningPrompt noPrevContext (lit "What is SQL?")) 15]) ∧
    techDifficultiesReply ≠
      lit "SQL is a standard language for querying relational databases." := by
  refine ⟨by rfl, by decide⟩

end CareerNav

namespace CareerNav

/-- Every branch of the local fallback returns a non-empty canned text. -/
theorem enhanced_fallback_response_ne_nil (p : Str) :
    enhanced_fallback_response p ≠ [] := by
  unfold enhanced_fallback_response
  simp only []
  split_ifs <;> decide

/-- C6 (counterexample): when the primary provider answers status 200 with
empty content, `safe_llm_invoke` returns the empty string — so it does not
always return a non-empty string. -/
theorem safe_llm_invoke_empty_result :
    safe_llm_invoke ⟨.response 200 (some []), [], .raises⟩ (lit "hi") 30 = [] := by
  decide

/-- C6 (amended): `safe_llm_invoke` is a total function (every raising
operation sits inside a handler), and whenever both provider calls raise — in
particular with no credentials and no network — it returns the deterministic
keyword-matched local fallback, which is never empty.  (With a reachable
provider the result can be empty, as the counterexample shows.) -/
theorem safe_llm_invoke_offline_fallback (env : LlmEnv) (prompt : Str) (t : Nat)
    (h1 : env.primary = .raises) (h2 : env.secondary = .raises) :
    safe_llm_invoke env prompt t = enhanced_fallback_response (truncatePrompt prompt) ∧
    safe_llm_invoke env prompt t ≠ [] := by
  have hmain : safe_llm_invoke env prompt t =
      enhanced_fallback_response (truncatePrompt prompt) := by
    unfold safe_llm_invoke primaryStage secondaryStage
    rw [h1, h2]
    by_cases hk : env.hfKey ≠ [] <;> simp [hk]
  exact ⟨hmain, hmain ▸ enhanced_fallback_response_ne_nil _⟩

/-- C6 (witness): the offline case at a concrete environment and prompt. -/
theorem safe_llm_invoke_offline_witness :
    safe_llm_invoke ⟨.raises, [], .raises⟩ (lit "hello") 30 =
      enhanced_fallback_response (truncatePrompt (lit "hello")) ∧
    safe_llm_invoke ⟨.raises, [], .raises⟩ (lit "hello") 30 ≠ [] :=
  safe_llm_invoke_offline_fallback ⟨.raises, [], .raises⟩ (lit "hello") 30 rfl rfl

/-- C7 (counterexample): a 200-status primary response whose content strips to
the empty string is returned as-is; the gateway does not fall through to the
configured and succeeding secondary provider. -/
theorem safe_llm_invoke_no_empty_fallthrough :
    safe_llm_invoke
      ⟨.response 200 (some (lit "   ")), lit "k", .response 200 true (lit "a useful answer")⟩
      (lit "hello") 30 = [] ∧
    secondaryStage
      ⟨.response 200 (some (lit "   ")), lit "k", .response 200 true (lit "a useful answer")⟩
      (truncatePrompt (lit "hello")) = some (lit "a useful answer") := by
  refine ⟨by decide, by decide⟩

/-- C7 (amended): on a transport/parse error or a non-success status from the
primary provider, the gateway falls through to the secondary stage, and when
that stage also yields nothing, to the local fallback.  (An empty text under a
success status is returned as-is; emptiness is only checked for the
secondary.) -/
theorem safe_llm_invoke_fallthrough (env : LlmEnv) (prompt : Str) (t : Nat)
    (h : env.primary = .raises ∨
         (∃ st c, env.primary = .response st c ∧ st ≠ 200) ∨
         (∃ st, env.primary = .response st none)) :
    (∀ s, secondaryStage env (truncatePrompt prompt) = some s →
        safe_llm_invoke env prompt t = s) ∧
    (secondaryStage env (truncatePrompt prompt) = none →
        safe_llm_invoke env prompt t = enhanced_fallback_response (truncatePrompt prompt)) := by
  have hp : primaryStage env = none := by
    rcases h with h | ⟨st, c, h, hst⟩ | ⟨st, h⟩
    · simp [primaryStage, h]
    · simp [primaryStage, h, hst]
    · by_cases hst : st = 200 <;> simp [primaryStage, h, hst]
  constructor
  · intro s hs
    simp [safe_llm_invoke, hp, hs]
  · intro hs
    simp [safe_llm_invoke, hp, hs]

/-- C7 (witness): a non-success primary with no secondary credentials lands on
the local fallback. -/
theorem safe_llm_invoke_fallthrough_witness :
    secondaryStage ⟨.response 500 (some (lit "err")), [], .raises⟩
      (truncatePrompt (lit "hi")) = none ∧
    safe_llm_invoke ⟨.response 500 (some (lit "err")), [], .raises⟩ (lit "hi") 30 =
      enhanced_fallback_response (truncatePrompt (lit "hi")) :=
  ⟨by decide,
   (safe_llm_invoke_fallthrough ⟨.response 500 (some (lit "err")), [], .raises⟩
      (lit "hi") 30
      (Or.inr (Or.inl ⟨500, some (lit "err"), rfl, by decide⟩))).2 (by decide)⟩

end CareerNav

namespace CareerNav

/-- ASCII lowering never produces a backslash from a non-backslash. -/
theorem pyLowerChar_ne_bs {c : Char} (h : c ≠ '\\') : pyLowerChar c ≠ '\\' := by
  unfold pyLowerChar
  split
  case isTrue hr =>
    obtain ⟨h1, h2⟩ := hr
    rw [Char.le_def] at h1 h2
    have h1n : 65 ≤ c.toNat := h1
    have h2n : c.toNat ≤ 90 := h2
    intro hEq
    have hv : (Char.ofNat (c.toNat + 32)).toNat = c.toNat + 32 := by
      unfold Char.ofNat
      rw [dif_pos]
      · rfl
      · exact Or.inl (by omega)
    rw [hEq] at hv
    have h92 : ('\\' : Char).toNat = 92 := by decide
    rw [h92] at hv
    omega
  case isFalse _ => exact h

/-- Lowering a backslash-free string yields a backslash-free string. -/
theorem bs_not_mem_pyLower {text : Str} (h : '\\' ∉ text) : '\\' ∉ pyLower text := by
  unfold pyLower
  intro hm
  obtain ⟨c, hc, hEq⟩ := List.mem_map.mp hm
  by_cases hcb : c = '\\'
  · exact h (hcb ▸ hc)
  · exact pyLowerChar_ne_bs hcb hEq

/-- A pattern whose first token is a literal absent from the text never
matches anywhere. -/
theorem searchToks_litc_of_not_mem (c : Char) (ps : List RTok) :
    ∀ (t : Str), c ∉ t → searchToks (RTok.litc c :: ps) t = false := by
  intro t
  induction t with
  | nil => intro _; rfl
  | cons d rest ih =>
    intro h
    have hd : c ≠ d := fun hEq => h (hEq ▸ List.mem_cons_self d rest)
    simp [searchToks, matchToks, hd, ih (fun hm => h (List.mem_cons_of_mem _ hm))]

/-- C8: every skill pattern `rf"\\b{s}\\b"` begins with a literal backslash,
so on resume text containing no backslash `analyze_resume` finds no skills
and emits all three default suggestions — the word-boundary intent of the
pattern never fires on ordinary text. -/
theorem analyze_resume_no_backslash (text : Str) (h : '\\' ∉ text) :
    analyze_resume text = ⟨[], [sugSql, sugAws, sugReact]⟩ := by
  have h2 : '\\' ∉ pyLower text := bs_not_mem_pyLower h
  have hf : skills_db.filter (fun s => reSearchSkill s (pyLower text)) = [] := by
    rw [List.filter_eq_nil_iff]
    intro s _
    simp only [Bool.not_eq_true]
    show reSearchSkill s (pyLower text) = false
    unfold reSearchSkill skillPattern
    exact searchToks_litc_of_not_mem '\\' _ _ h2
  simp only [analyze_resume]
  rw [hf]
  simp [List.insertionSort]

/-- C8 (witness): a concrete ordinary resume line. -/
theorem analyze_resume_no_backslash_witness :
    ('\\' ∉ lit "experienced python and sql developer") ∧
    analyze_resume (lit "experienced python and sql developer") =
      ⟨[], [sugSql, sugAws, sugReact]⟩ :=
  ⟨by decide, analyze_resume_no_backslash _ (by decide)⟩

/-- C9: `match_jobs` attaches to every post a `match_score` equal to the
distinct-skill overlap with its lower-cased requirements, returns a
permutation of the score-annotated input, sorted by score descending, stably
(any correctly ordered input pair, in particular any tie, survives as a
sublist); and on the claim's concrete example the second posting ranks first
with score 2 against 1. -/
theorem match_jobs_spec :
    (∀ (skills : List Str) (posts : List Post),
      (∀ p ∈ match_jobs skills posts, p.match_score = some (postScore skills p)) ∧
      (match_jobs skills posts).Perm
        (posts.map (fun p => { p with match_score := some (postScore skills p) })) ∧
      (match_jobs skills posts).Pairwise
        (fun a b => postScore skills b ≤ postScore skills a) ∧
      (∀ a b : Post, postScore skills b ≤ postScore skills a → [a, b].Sublist posts →
        [{ a with match_score := some (postScore skills a) },
         { b with match_score := some (postScore skills b) }].Sublist
          (match_jobs skills posts))) ∧
    match_jobs [lit "sql", lit "python"]
      [⟨lit "jobA", [lit "sql", lit "java"], none⟩,
       ⟨lit "jobB", [lit "python", lit "sql"], none⟩] =
      [⟨lit "jobB", [lit "python", lit "sql"], some 2⟩,
       ⟨lit "jobA", [lit "sql", lit "java"], some 1⟩] := by
  constructor
  · intro skills posts
    refine ⟨?_, ?_, ?_, ?_⟩
    · intro p hp
      unfold match_jobs at hp
      obtain ⟨q, _, rfl⟩ := List.mem_map.mp hp
      rfl
    · unfold match_jobs
      exact (List.perm_insertionSort
        (fun a b => postScore skills b ≤ postScore skills a) posts).map _
    · unfold match_jobs
      haveI : IsTotal Post (fun a b => postScore skills b ≤ postScore skills a) :=
        ⟨fun a b => le_total _ _⟩
      haveI : IsTrans Post (fun a b => postScore skills b ≤ postScore skills a) :=
        ⟨fun _ _ _ hab hbc => le_trans hbc hab⟩
      have hs := List.sorted_insertionSort
        (fun a b => postScore skills b ≤ postScore skills a) posts
      exact List.pairwise_map.mpr hs
    · intro a b hab hsub
      unfold match_jobs
      have h1 := @List.pair_sublist_insertionSort Post
        (fun a b => postScore skills b ≤ postScore skills a) (fun _ _ => inferInstance)
        a b posts hab hsub
      simpa using
        h1.map (fun p => { p with match_score := some (postScore skills p) })
  · decide

/-- C9 (witness): the stability conjunct applied at a concrete tie — with no
skills both posts score 0 and keep their input order. -/
theorem match_jobs_spec_witness :
    [⟨lit "jobA", [lit "x"], some (postScore [] ⟨lit "jobA", [lit "x"], none⟩)⟩,
     ⟨lit "jobB", [lit "y"], some (postScore [] ⟨lit "jobB", [lit "y"], none⟩)⟩].Sublist
      (match_jobs [] [⟨lit "jobA", [lit "x"], none⟩, ⟨lit "jobB", [lit "y"], none⟩]) :=
  (match_jobs_spec.1 [] [⟨lit "jobA", [lit "x"], none⟩, ⟨lit "jobB", [lit "y"], none⟩]).2.2.2
    ⟨lit "jobA", [lit "x"], none⟩ ⟨lit "jobB", [lit "y"], none⟩
    (by decide) (by decide)

end CareerNav

namespace CareerNav

/-! ## Helper lemmas for the response-phase analysis -/

theorem occursIn_here (pat v : Str) : occursIn pat (pat ++ v) := ⟨[], v, rfl⟩

theorem occursIn_appL (pat s t : Str) (h : occursIn pat s) : occursIn pat (s ++ t) := by
  obtain ⟨u, v, rfl⟩ := h
  exact ⟨u, v ++ t, by simp [List.append_assoc]⟩

theorem occursIn_appR (pat s t : Str) (h : occursIn pat t) : occursIn pat (s ++ t) := by
  obtain ⟨u, v, rfl⟩ := h
  exact ⟨s ++ u, v, by simp [List.append_assoc]⟩

theorem occursIn_spine4 (a b c d v : Str) :
    occursIn (a ++ (b ++ (c ++ d))) (a ++ (b ++ (c ++ (d ++ v)))) :=
  ⟨[], v, by simp [List.append_assoc]⟩

theorem isPrefixOf_append_self (p t : Str) : p.isPrefixOf (p ++ t) = true := by
  rw [List.isPrefixOf_iff_prefix]
  exact List.prefix_append p t

/-- The success banner never prefixes a reply that starts with the warning
banner (their first characters differ). -/
theorem successReply_not_prefix_warning (t : Str) : ¬ successReply <+: warningReply ++ t := by
  intro h
  rw [← List.isPrefixOf_iff_prefix] at h
  have hx : successReply.isPrefixOf (warningReply ++ t) = false := rfl
  rw [hx] at h
  cases h

end CareerNav

namespace CareerNav

set_option maxHeartbeats 2000000 in
theorem restructureRespond_spec (env : CareerEnv) (resume latex : Str)
    (hw : env.writeTexOk = true) (hc : env.compileRaises = false) :
    (successReply.isPrefixOf (restructureRespond env resume latex).1.reply = true ↔
      (env.pdfExists = true ∧ 1000 < env.pdfSize)) ∧
    ((restructureRespond env resume latex).1.pdf_path =
        some (lit "/generated_resumes/" ++ ((lit "resume_restructured_" ++ env.token) ++ lit ".pdf")) ↔
      (env.pdfExists = true ∨ env.fitzOk = true)) ∧
    (EffCall.fitzSave fitzTitle (resume.take 1500) ∈ (restructureRespond env resume latex).2 ↔
      env.pdfExists = false) ∧
    (env.pdfExists = true →
      occursIn (lit "/download-pdf/" ++ ((lit "resume_restructured_" ++ env.token) ++ lit ".pdf"))
        (restructureRespond env resume latex).1.reply) ∧
    (env.pdfExists = false ∧ env.fitzOk = true →
      occursIn (lit "/download-pdf/" ++ ((lit "resume_restructured_" ++ env.token) ++ lit "_simple.pdf"))
        (restructureRespond env resume latex).1.reply) := by
  simp only [restructureRespond, hw, hc]
  cases hE : env.pdfExists
  case false =>
    cases hF : env.fitzOk
    case false =>
      simp [hE, hF]
      split_ifs <;> (try simp only [List.append_assoc]) <;>
        exact successReply_not_prefix_warning _
    case true =>
      simp [hE, hF]
      refine ⟨?_, ?_⟩
      · split_ifs <;> (try simp only [List.append_assoc]) <;>
          exact successReply_not_prefix_warning _
      · split_ifs <;>
          exact occursIn_appR _ _ _ (occursIn_appR _ _ _ (occursIn_appR _ _ _
            (occursIn_spine4 _ _ _ _ _)))
  case true =>
    by_cases hS : 1000 < env.pdfSize <;> simp [hE, hS]
    case pos =>
      refine ⟨?_, ?_⟩
      · split_ifs <;> exact List.prefix_append _ _
      · split_ifs <;>
          exact occursIn_appR _ _ _ (occursIn_appR _ _ _ (occursIn_spine4 _ _ _ _ _))
    case neg =>
      refine ⟨?_, ?_⟩
      · split_ifs <;> (try simp only [List.append_assoc]) <;>
          exact successReply_not_prefix_warning _
      · split_ifs <;>
          exact occursIn_appR _ _ _ (occursIn_appR _ _ _ (occursIn_spine4 _ _ _ _ _))

end CareerNav

namespace CareerNav


/-- C5 (amended): in the restructure branch with a successful file write and a
non-raising typesetting loop, the success banner appears iff the output PDF
exists and exceeds 1000 bytes; but the fitz fallback document (fixed title
plus the first 1500 characters of the resume) is produced exactly when the
PDF file is missing — an existing PDF of 1000 bytes or fewer is still linked
in the reply (with the warning banner) and no fallback is generated; the
result's `pdf_path` field references the main PDF whenever the PDF exists or
the fallback save succeeded. -/
theorem career_agent_compile_threshold (env : CareerEnv) (state : AgentState)
    (hres : pyStrip (state.resume_text.getD []) ≠ [])
    (hcl : hasSubstr (pyLower (pyStrip (env.gw
        (classifierPrompt (pyLower (state.message.getD []))) 30)))
      (lit "restructure") = true)
    (hw : env.writeTexOk = true)
    (hc : env.compileRaises = false) :
    (successReply.isPrefixOf (career_agent env state).1.reply = true ↔
      (env.pdfExists = true ∧ 1000 < env.pdfSize)) ∧
    ((career_agent env state).1.pdf_path =
        some (lit "/generated_resumes/" ++
          ((lit "resume_restructured_" ++ env.token) ++ lit ".pdf")) ↔
      (env.pdfExists = true ∨ env.fitzOk = true)) ∧
    (EffCall.fitzSave fitzTitle ((pyStrip (state.resume_text.getD [])).take 1500) ∈
        (career_agent env state).2 ↔ env.pdfExists = false) ∧
    (env.pdfExists = true →
      occursIn (lit "/download-pdf/" ++
          ((lit "resume_restructured_" ++ env.token) ++ lit ".pdf"))
        (career_agent env state).1.reply) ∧
    (env.pdfExists = false ∧ env.fitzOk = true →
      occursIn (lit "/download-pdf/" ++
          ((lit "resume_restructured_" ++ env.token) ++ lit "_simple.pdf"))
        (career_agent env state).1.reply) := by
  simp only [career_agent]
  rw [if_neg hres]
  simp only [hcl, if_true, ite_true]
  rw [if_neg (show ¬ (lit "restructure" = lit "analyze") by decide)]
  have h := fun L => restructureRespond_spec env (pyStrip (state.resume_text.getD [])) L hw hc
  refine ⟨(h _).1, (h _).2.1, ?_, (h _).2.2.2.1, (h _).2.2.2.2⟩
  show EffCall.fitzSave _ _ ∈
    EffCall.llm _ _ :: EffCall.llm _ _ :: (restructureRespond env _ _).2 ↔ _
  simp only [List.mem_cons]
  rw [(h _).2.2.1]
  simp


/-- C5 (counterexample): with an existing 500-byte output PDF the claim fails:
the compile is reported as problematic (warning banner), yet no fitz fallback
is produced and the reply links the undersized PDF itself. -/
theorem career_agent_undersized_pdf :
    ((career_agent
        ⟨fun _ _ => lit "\\documentclass restructure \\begin\x7bdocument\x7d \\end\x7bdocument\x7d",
         lit "t0", true, false, [], [], true, 500, true, []⟩
        ⟨some (lit "please restructure"), some (lit "resume body"), [], none⟩).1.pdf_path =
      some (lit "/generated_resumes/resume_restructured_t0.pdf")) ∧
    ((career_agent
        ⟨fun _ _ => lit "\\documentclass restructure \\begin\x7bdocument\x7d \\end\x7bdocument\x7d",
         lit "t0", true, false, [], [], true, 500, true, []⟩
        ⟨some (lit "please restructure"), some (lit "resume body"), [], none⟩).2.all
      (fun e => match e with | EffCall.fitzSave _ _ => false | _ => true) = true) ∧
    hasSubstr
      (career_agent
        ⟨fun _ _ => lit "\\documentclass restructure \\begin\x7bdocument\x7d \\end\x7bdocument\x7d",
         lit "t0", true, false, [], [], true, 500, true, []⟩
        ⟨some (lit "please restructure"), some (lit "resume body"), [], none⟩).1.reply
      (lit "/download-pdf/resume_restructured_t0.pdf") = true ∧
    warningReply.isPrefixOf
      (career_agent
        ⟨fun _ _ => lit "\\documentclass restructure \\begin\x7bdocument\x7d \\end\x7bdocument\x7d",
         lit "t0", true, false, [], [], true, 500, true, []⟩
        ⟨some (lit "please restructure"), some (lit "resume body"), [], none⟩).1.reply = true := by
  refine ⟨by decide, by decide, by decide, by decide⟩

theorem career_agent_compile_threshold_witness :
    (successReply.isPrefixOf
        (career_agent ⟨fun _ _ => lit "restructure", lit "tok1", true, false, [], [], true, 2000, false, []⟩
          ⟨some (lit "redo"), some (lit "my resume"), [], none⟩).1.reply = true ↔
      ((true : Bool) = true ∧ 1000 < 2000)) ∧
    ((career_agent ⟨fun _ _ => lit "restructure", lit "tok1", true, false, [], [], true, 2000, false, []⟩
          ⟨some (lit "redo"), some (lit "my resume"), [], none⟩).1.pdf_path =
        some (lit "/generated_resumes/" ++ ((lit "resume_restructured_" ++ lit "tok1") ++ lit ".pdf")) ↔
      ((true : Bool) = true ∨ (false : Bool) = true)) ∧
    (EffCall.fitzSave fitzTitle ((pyStrip ((some (lit "my resume")).getD [])).take 1500) ∈
        (career_agent ⟨fun _ _ => lit "restructure", lit "tok1", true, false, [], [], true, 2000, false, []⟩
          ⟨some (lit "redo"), some (lit "my resume"), [], none⟩).2 ↔ (true : Bool) = false) ∧
    ((true : Bool) = true →
      occursIn (lit "/download-pdf/" ++ ((lit "resume_restructured_" ++ lit "tok1") ++ lit ".pdf"))
        (career_agent ⟨fun _ _ => lit "restructure", lit "tok1", true, false, [], [], true, 2000, false, []⟩
          ⟨some (lit "redo"), some (lit "my resume"), [], none⟩).1.reply) ∧
    ((true : Bool) = false ∧ (false : Bool) = true →
      occursIn (lit "/download-pdf/" ++ ((lit "resume_restructured_" ++ lit "tok1") ++ lit "_simple.pdf"))
        (career_agent ⟨fun _ _ => lit "restructure", lit "tok1", true, false, [], [], true, 2000, false, []⟩
          ⟨some (lit "redo"), some (lit "my resume"), [], none⟩).1.reply) :=
  career_agent_compile_threshold
    ⟨fun _ _ => lit "restructure", lit "tok1", true, false, [], [], true, 2000, false, []⟩
    ⟨some (lit "redo"), some (lit "my resume"), [], none⟩
    (by decide) (by decide) rfl rfl


end CareerNav
